import Mathlib

set_option maxRecDepth 1000000

/-!
Verification development for the streaming smoke-alarm detector
(`smoke_detection_algorithm.py`, class `SmokeAlarmDetector`).

The detector is embedded shallowly over exact rational arithmetic:

* Everything from `magnitudes = np.abs(np.fft.rfft(windowed))` onwards is
  ordinary arithmetic on the magnitude spectrum and on the bin frequencies
  `np.fft.rfftfreq(n, 1/sample_rate)[i] = i * sample_rate / n`, and is
  translated literally.  The transcendental step (Hann window + rFFT +
  absolute value, lines 82-87 of the source) is not arithmetic over the
  rationals, so `process_audio_chunk` is modelled as receiving the chunk
  length `n` together with the magnitude spectrum `mags` (the value of
  `np.abs(np.fft.rfft(windowed))`, a list of `n / 2 + 1` non-negative
  reals) instead of the raw samples.
* `np.std` comparisons are rendered exactly by comparing the population
  variance against the squared bound: for `v ≥ 0` and `c ≥ 0`,
  `sqrt v < c ↔ v < c^2` etc.  The source only compares standard
  deviations (never stores them), so this rendering is exact for the real
  semantics; the divisor `avg_signal_ratio + 1e-10` is positive for the
  non-negative spectra produced by `np.abs`.
* Python truthiness of `self.last_alarm_time` (`None` and `0.0` are both
  falsy) is modelled by `optTruthy`.
* `deque(maxlen=100)` is modelled by `dequeAppend 100`: append on the
  right, evict from the left beyond the capacity.
-/

/-- Constructor parameters of `SmokeAlarmDetector.__init__` (all captured
as exact rationals; `chunk_size` is carried although, as proved below, the
processing path never reads it). -/
structure DetectorConfig where
  sample_rate : ℚ
  chunk_size : ℕ
  target_frequency : ℚ
  frequency_tolerance : ℚ
  ambient_learning_time : ℚ
  alarm_sustain_threshold : ℚ
  alarm_latch_time : ℚ
  min_signal_ratio : ℚ
  frequency_occupation_threshold : ℚ
  deriving DecidableEq

/-- One entry of `self.detection_windows`, as appended by
`_record_detection_window`. -/
structure DetectionWindow where
  timestamp : ℚ
  is_strong_signal : Bool
  frequency : ℚ
  signal_ratio : ℚ
  magnitude : ℚ
  deriving DecidableEq

/-- The mutable state of a `SmokeAlarmDetector` instance (the fields set
in `__init__` that `process_audio_chunk` reads or writes). -/
structure DetectorState where
  start_time : Option ℚ
  ambient_background_level : ℚ
  ambient_samples_count : ℕ
  is_learning_ambient : Bool
  detection_windows : List DetectionWindow
  last_alarm_time : Option ℚ
  is_alarm_latched : Bool
  deriving DecidableEq

/-- The detection dict returned by `_analyze_sustained_detection` on a
successful detection. -/
structure DetectionEvent where
  timestamp : ℚ
  frequency : ℚ
  strength : ℚ
  confidence : ℚ
  detection_type : String
  frequency_occupation : ℚ
  analysis_window : ℚ
  deriving DecidableEq

/-- State as produced by `SmokeAlarmDetector.__init__`. -/
def initial_state : DetectorState :=
  { start_time := none
    ambient_background_level := 0
    ambient_samples_count := 0
    is_learning_ambient := true
    detection_windows := []
    last_alarm_time := none
    is_alarm_latched := false }

/-- Python truthiness of an `Optional[float]`: `None` and `0.0` are falsy,
every other number is truthy.  Used for `if ... and self.last_alarm_time:`. -/
def optTruthy : Option ℚ → Bool
  | none => false
  | some x => decide (x ≠ 0)

/-- The epsilon `1e-10` used by the source to guard divisions. -/
def eps : ℚ := 1 / 10 ^ 10

/-- `np.mean` of a list (`0` on the empty list, which the source never
takes a mean of on any reached path). -/
def listMean (xs : List ℚ) : ℚ := xs.sum / (xs.length : ℚ)

/-- Population variance, i.e. the square of `np.std`. -/
def popVar (xs : List ℚ) : ℚ :=
  listMean (xs.map fun x => (x - listMean xs) * (x - listMean xs))

/-- `np.fft.rfftfreq(n, 1/sample_rate)`: the `n/2 + 1` bin frequencies
`i * sample_rate / n`. -/
def rfftfreq (n : ℕ) (sample_rate : ℚ) : List ℚ :=
  (List.range (n / 2 + 1)).map fun i : ℕ => (i : ℚ) * sample_rate / (n : ℚ)

/-- The boolean mask `(freqs >= target_frequency - tol) & (freqs <= target_frequency + tol)`
at a single frequency. -/
def inBand (cfg : DetectorConfig) (f : ℚ) : Bool :=
  decide (cfg.target_frequency - cfg.frequency_tolerance ≤ f) &&
  decide (f ≤ cfg.target_frequency + cfg.frequency_tolerance)

/-- Append on a `deque(maxlen=cap)`: push right, evict from the left
whatever exceeds the capacity. -/
def dequeAppend (cap : ℕ) (l : List DetectionWindow) (x : DetectionWindow) :
    List DetectionWindow :=
  let l2 := l ++ [x]
  if cap < l2.length then l2.drop (l2.length - cap) else l2

/-- `np.argmax` composed with indexing, on (frequency, magnitude) pairs:
the first pair of maximal magnitude (`np.argmax` returns the first index
of the maximum).  Returns `(0, 0)` on the empty list, which the source
guards against with `if not np.any(mask)`. -/
def argmaxPair : List (ℚ × ℚ) → ℚ × ℚ
  | [] => (0, 0)
  | p :: ps => ps.foldl (fun best q => if best.2 < q.2 then q else best) p

/-- `current_background` (source lines 89-100): mean magnitude outside the
target band, falling back to `0.1 * mean(all magnitudes)` when every bin
is inside the band.  The branch condition is `np.any(background_mask)`,
a test on the frequency mask alone, exactly as in the source. -/
def currentBackground (cfg : DetectorConfig) (n : ℕ) (mags : List ℚ) : ℚ :=
  let freqs := rfftfreq n cfg.sample_rate
  if freqs.any (fun f => !(inBand cfg f)) then
    listMean (((freqs.zip mags).filter fun p => !(inBand cfg p.1)).map fun p => p.2)
  else
    listMean mags * (1 / 10)

/-- The target-band analysis of one chunk (source lines 118-139): peak
magnitude and frequency in the band, the two signal ratios, the
strong-signal test, bundled into the `DetectionWindow` the source then
records.  A pure function of the configuration, the learned ambient
level, and the chunk spectrum. -/
def strong_window (cfg : DetectorConfig) (ambient : ℚ) (n : ℕ) (mags : List ℚ)
    (current_time : ℚ) : DetectionWindow :=
  let current_background := currentBackground cfg n mags
  let target := ((rfftfreq n cfg.sample_rate).zip mags).filter fun p => inBand cfg p.1
  let peak := argmaxPair target
  let signal_to_background := peak.2 / (ambient + eps)
  let signal_to_current := peak.2 / (current_background + eps)
  let is_strong :=
    decide (cfg.min_signal_ratio < signal_to_background) &&
    decide ((8 : ℚ) < signal_to_current) &&
    decide (listMean mags * 12 < peak.2)
  { timestamp := current_time
    is_strong_signal := is_strong
    frequency := peak.1
    signal_ratio := signal_to_background
    magnitude := peak.2 }

/-- `_record_detection_window`. -/
def record_detection_window (s : DetectorState) (timestamp : ℚ)
    (is_strong : Bool) (frequency signal_ratio magnitude : ℚ) : DetectorState :=
  { s with detection_windows := dequeAppend 100 s.detection_windows
              (DetectionWindow.mk timestamp is_strong frequency signal_ratio magnitude) }

/-- The decision predicate of `_analyze_sustained_detection` (source
lines 203-224) over the metrics computed from the analysis window:
`frequency_occupation_ratio`, `avg_frequency`, `avg_signal_ratio`, the
variances of the strong frequencies and strong signal ratios (`freq_var`
and `sr_var`, the squares of the source's `freq_std` and
`signal_ratio_std`), and the number of strong detections.  Every
comparison involving a standard deviation is rendered on the variance
against the squared bound, exact for the real semantics (see the module
comment); e.g. `0.2 < signal_ratio_std / (avg + 1e-10) < 1.2` becomes
`(0.2 * dv)^2 < sr_var < (1.2 * dv)^2` with `dv = avg + 1e-10`. -/
def alarm_decision (cfg : DetectorConfig)
    (frequency_occupation_ratio avg_frequency avg_signal_ratio freq_var sr_var : ℚ)
    (strong_count : ℕ) : Bool :=
  let dv := avg_signal_ratio + eps
  let is_reasonable_occupation :=
    decide ((1 / 5 : ℚ) ≤ frequency_occupation_ratio) &&
    decide (frequency_occupation_ratio ≤ (4 / 5 : ℚ))
  let has_reasonable_variation :=
    decide ((1 / 10 * dv) * (1 / 10 * dv) ≤ sr_var) &&
    decide (sr_var ≤ (2 * dv) * (2 * dv))
  let has_appropriate_consistency :=
    ((decide ((100 : ℚ) < freq_var) && decide (freq_var < 10000)) ||
      (decide (freq_var ≤ 100) && decide ((500 : ℚ) < avg_signal_ratio))) &&
    (decide ((1 / 5 * dv) * (1 / 5 * dv) < sr_var) &&
      decide (sr_var < (6 / 5 * dv) * (6 / 5 * dv)))
  decide (cfg.frequency_occupation_threshold ≤ frequency_occupation_ratio) &&
  is_reasonable_occupation &&
  decide (cfg.min_signal_ratio < avg_signal_ratio) &&
  has_reasonable_variation &&
  has_appropriate_consistency &&
  decide (cfg.target_frequency - cfg.frequency_tolerance ≤ avg_frequency) &&
  decide (avg_frequency ≤ cfg.target_frequency + cfg.frequency_tolerance) &&
  decide (5 ≤ strong_count)

/-- The decision pipeline of `_analyze_sustained_detection` (source lines
162-241) as a pure function of the ring-buffer contents, the current
time, and the configuration.  `np.std` comparisons are rendered on the
population variance against squared bounds (see the module comment). -/
def sustained_result (cfg : DetectorConfig) (windows : List DetectionWindow)
    (current_time : ℚ) : Option DetectionEvent :=
  if windows.length < 5 then none
  else
    let analysis_window := cfg.alarm_sustain_threshold
    let recent := windows.filter fun d =>
      decide (current_time - d.timestamp ≤ analysis_window)
    if recent.length < 3 then none
    else
      let strong_signal_count := (recent.filter fun d => d.is_strong_signal).length
      let total_detections := recent.length
      let frequency_occupation_ratio :=
        (strong_signal_count : ℚ) / (total_detections : ℚ)
      let strong_detections := recent.filter fun d => d.is_strong_signal
      if strong_detections.length < 2 then none
      else
        let frequencies := strong_detections.map fun d => d.frequency
        let freq_var := popVar frequencies
        let avg_frequency := listMean frequencies
        let avg_signal_ratio :=
          listMean (strong_detections.map fun d => d.signal_ratio)
        let signal_ratios := strong_detections.map fun d => d.signal_ratio
        let sr_var := if 1 < signal_ratios.length then popVar signal_ratios else 0
        if alarm_decision cfg frequency_occupation_ratio avg_frequency
            avg_signal_ratio freq_var sr_var strong_detections.length then
          some
            { timestamp := current_time
              frequency := avg_frequency
              strength := avg_signal_ratio
              confidence := min 1 (frequency_occupation_ratio * 2)
              detection_type := "sustained_frequency"
              frequency_occupation := frequency_occupation_ratio
              analysis_window := analysis_window }
        else none

/-- `_analyze_sustained_detection`: runs the pure decision pipeline on
`self.detection_windows` and, on success, sets the latch
(`last_alarm_time`, `is_alarm_latched`).  The `peak_frequency` and
`signal_ratio` parameters are carried but, as in the source, unused. -/
def analyze_sustained_detection (cfg : DetectorConfig) (s : DetectorState)
    (current_time peak_frequency signal_ratio : ℚ) :
    DetectorState × Option DetectionEvent :=
  match sustained_result cfg s.detection_windows current_time with
  | some ev =>
    ({ s with last_alarm_time := some current_time, is_alarm_latched := true },
      some ev)
  | none => (s, none)

/-- The part of `process_audio_chunk` after the latch check (source lines
81-142): spectral quantities, ambient learning, per-chunk classification,
window recording, sustained analysis. -/
def process_body (cfg : DetectorConfig) (s : DetectorState) (n : ℕ)
    (mags : List ℚ) (current_time : ℚ) : DetectorState × Option DetectionEvent :=
  let current_background := currentBackground cfg n mags
  let time_since_start := current_time - (s.start_time.getD 0)
  if s.is_learning_ambient && decide (time_since_start < cfg.ambient_learning_time) then
    ({ s with
        ambient_background_level :=
          (s.ambient_background_level * (s.ambient_samples_count : ℚ) +
              current_background) /
            ((s.ambient_samples_count : ℚ) + 1)
        ambient_samples_count := s.ambient_samples_count + 1 }, none)
  else
    let s2 := if s.is_learning_ambient then { s with is_learning_ambient := false } else s
    if !((rfftfreq n cfg.sample_rate).any fun f => inBand cfg f) then
      (record_detection_window s2 current_time false 0 0 0, none)
    else
      let w := strong_window cfg s2.ambient_background_level n mags current_time
      let s3 := record_detection_window s2 current_time w.is_strong_signal
        w.frequency w.signal_ratio w.magnitude
      analyze_sustained_detection cfg s3 current_time w.frequency w.signal_ratio

/-- `process_audio_chunk(audio_data, timestamp)`.  The chunk is received
as its length `n` plus its magnitude spectrum `mags` (see the module
comment); `current_time` is the caller-supplied timestamp.  Returns the
new state and the optional detection dict. -/
def process_audio_chunk (cfg : DetectorConfig) (s : DetectorState) (n : ℕ)
    (mags : List ℚ) (current_time : ℚ) : DetectorState × Option DetectionEvent :=
  let s1 := if s.start_time.isNone then { s with start_time := some current_time } else s
  if s1.is_alarm_latched && optTruthy s1.last_alarm_time then
    if current_time - (s1.last_alarm_time.getD 0) < cfg.alarm_latch_time then
      (s1, none)
    else
      process_body cfg { s1 with is_alarm_latched := false } n mags current_time
  else
    process_body cfg s1 n mags current_time

/-- One input chunk: length, magnitude spectrum, timestamp. -/
structure Chunk where
  n : ℕ
  mags : List ℚ
  t : ℚ
  deriving DecidableEq

/-- Run the detector over a list of chunks, collecting the final state
and the per-chunk results. -/
def runDetector (cfg : DetectorConfig) : DetectorState → List Chunk →
    DetectorState × List (Option DetectionEvent)
  | s, [] => (s, [])
  | s, c :: cs =>
    let r := process_audio_chunk cfg s c.n c.mags c.t
    let rest := runDetector cfg r.1 cs
    (rest.1, r.2 :: rest.2)

/-- The output of the Spectral Frontend of the specification (spec 4.1):
the in-band peak and the out-of-band background, plus the sentinel flag
for an empty target band.  A function of the chunk spectrum and of the
three configuration fields the spectral code reads (`sample_rate`,
`target_frequency`, `frequency_tolerance`) only. -/
structure SpectralResult where
  has_target_bins : Bool
  peak_frequency : ℚ
  peak_magnitude : ℚ
  current_background : ℚ
  deriving DecidableEq

/-- The Spectral Frontend: the stateless spectral computations of
`process_audio_chunk` (source lines 81-100 and 113-124) bundled into one
pure function of the chunk spectrum and the configuration. -/
def spectralFrontend (cfg : DetectorConfig) (n : ℕ) (mags : List ℚ) : SpectralResult :=
  let freqs := rfftfreq n cfg.sample_rate
  let current_background := currentBackground cfg n mags
  if freqs.any (fun f => inBand cfg f) then
    let target := (freqs.zip mags).filter fun p => inBand cfg p.1
    let peak := argmaxPair target
    { has_target_bins := true
      peak_frequency := peak.1
      peak_magnitude := peak.2
      current_background := current_background }
  else
    { has_target_bins := false
      peak_frequency := 0
      peak_magnitude := 0
      current_background := current_background }

/-- `process_body` re-expressed so that every spectral quantity is read
off a single `spectralFrontend` result computed from the chunk and the
configuration alone.  Proved equal to `process_body` below: the spectral
work of `process_audio_chunk` factors through a function that never sees
the detector state. -/
def process_body_frontend (cfg : DetectorConfig) (s : DetectorState) (n : ℕ)
    (mags : List ℚ) (current_time : ℚ) : DetectorState × Option DetectionEvent :=
  let r := spectralFrontend cfg n mags
  let time_since_start := current_time - (s.start_time.getD 0)
  if s.is_learning_ambient && decide (time_since_start < cfg.ambient_learning_time) then
    ({ s with
        ambient_background_level :=
          (s.ambient_background_level * (s.ambient_samples_count : ℚ) +
              r.current_background) /
            ((s.ambient_samples_count : ℚ) + 1)
        ambient_samples_count := s.ambient_samples_count + 1 }, none)
  else
    let s2 := if s.is_learning_ambient then { s with is_learning_ambient := false } else s
    if !r.has_target_bins then
      (record_detection_window s2 current_time false 0 0 0, none)
    else
      let signal_to_background := r.peak_magnitude / (s2.ambient_background_level + eps)
      let signal_to_current := r.peak_magnitude / (r.current_background + eps)
      let is_strong :=
        decide (cfg.min_signal_ratio < signal_to_background) &&
        decide ((8 : ℚ) < signal_to_current) &&
        decide (listMean mags * 12 < r.peak_magnitude)
      let s3 := record_detection_window s2 current_time is_strong
        r.peak_frequency signal_to_background r.peak_magnitude
      analyze_sustained_detection cfg s3 current_time r.peak_frequency signal_to_background

/-- `process_audio_chunk` routed through `process_body_frontend`. -/
def process_audio_chunk_frontend (cfg : DetectorConfig) (s : DetectorState) (n : ℕ)
    (mags : List ℚ) (current_time : ℚ) : DetectorState × Option DetectionEvent :=
  let s1 := if s.start_time.isNone then { s with start_time := some current_time } else s
  if s1.is_alarm_latched && optTruthy s1.last_alarm_time then
    if current_time - (s1.last_alarm_time.getD 0) < cfg.alarm_latch_time then
      (s1, none)
    else
      process_body_frontend cfg { s1 with is_alarm_latched := false } n mags current_time
  else
    process_body_frontend cfg s1 n mags current_time

/-- Variant of `alarm_decision` with the `has_reasonable_variation`
conjunct (the `0.1 ≤ signal_strength_variation ≤ 2.0` check) removed. -/
def alarm_decision_nrv (cfg : DetectorConfig)
    (frequency_occupation_ratio avg_frequency avg_signal_ratio freq_var sr_var : ℚ)
    (strong_count : ℕ) : Bool :=
  let dv := avg_signal_ratio + eps
  let is_reasonable_occupation :=
    decide ((1 / 5 : ℚ) ≤ frequency_occupation_ratio) &&
    decide (frequency_occupation_ratio ≤ (4 / 5 : ℚ))
  let has_appropriate_consistency :=
    ((decide ((100 : ℚ) < freq_var) && decide (freq_var < 10000)) ||
      (decide (freq_var ≤ 100) && decide ((500 : ℚ) < avg_signal_ratio))) &&
    (decide ((1 / 5 * dv) * (1 / 5 * dv) < sr_var) &&
      decide (sr_var < (6 / 5 * dv) * (6 / 5 * dv)))
  decide (cfg.frequency_occupation_threshold ≤ frequency_occupation_ratio) &&
  is_reasonable_occupation &&
  decide (cfg.min_signal_ratio < avg_signal_ratio) &&
  has_appropriate_consistency &&
  decide (cfg.target_frequency - cfg.frequency_tolerance ≤ avg_frequency) &&
  decide (avg_frequency ≤ cfg.target_frequency + cfg.frequency_tolerance) &&
  decide (5 ≤ strong_count)

/-- `sustained_result` with the `has_reasonable_variation` check removed. -/
def sustained_result_nrv (cfg : DetectorConfig) (windows : List DetectionWindow)
    (current_time : ℚ) : Option DetectionEvent :=
  if windows.length < 5 then none
  else
    let analysis_window := cfg.alarm_sustain_threshold
    let recent := windows.filter fun d =>
      decide (current_time - d.timestamp ≤ analysis_window)
    if recent.length < 3 then none
    else
      let strong_signal_count := (recent.filter fun d => d.is_strong_signal).length
      let total_detections := recent.length
      let frequency_occupation_ratio :=
        (strong_signal_count : ℚ) / (total_detections : ℚ)
      let strong_detections := recent.filter fun d => d.is_strong_signal
      if strong_detections.length < 2 then none
      else
        let frequencies := strong_detections.map fun d => d.frequency
        let freq_var := popVar frequencies
        let avg_frequency := listMean frequencies
        let avg_signal_ratio :=
          listMean (strong_detections.map fun d => d.signal_ratio)
        let signal_ratios := strong_detections.map fun d => d.signal_ratio
        let sr_var := if 1 < signal_ratios.length then popVar signal_ratios else 0
        if alarm_decision_nrv cfg frequency_occupation_ratio avg_frequency
            avg_signal_ratio freq_var sr_var strong_detections.length then
          some
            { timestamp := current_time
              frequency := avg_frequency
              strength := avg_signal_ratio
              confidence := min 1 (frequency_occupation_ratio * 2)
              detection_type := "sustained_frequency"
              frequency_occupation := frequency_occupation_ratio
              analysis_window := analysis_window }
        else none

/-- `_analyze_sustained_detection` with the reasonable-variation check
removed. -/
def analyze_sustained_detection_nrv (cfg : DetectorConfig) (s : DetectorState)
    (current_time peak_frequency signal_ratio : ℚ) :
    DetectorState × Option DetectionEvent :=
  match sustained_result_nrv cfg s.detection_windows current_time with
  | some ev =>
    ({ s with last_alarm_time := some current_time, is_alarm_latched := true },
      some ev)
  | none => (s, none)

/-- `process_body` with the reasonable-variation check removed. -/
def process_body_nrv (cfg : DetectorConfig) (s : DetectorState) (n : ℕ)
    (mags : List ℚ) (current_time : ℚ) : DetectorState × Option DetectionEvent :=
  let current_background := currentBackground cfg n mags
  let time_since_start := current_time - (s.start_time.getD 0)
  if s.is_learning_ambient && decide (time_since_start < cfg.ambient_learning_time) then
    ({ s with
        ambient_background_level :=
          (s.ambient_background_level * (s.ambient_samples_count : ℚ) +
              current_background) /
            ((s.ambient_samples_count : ℚ) + 1)
        ambient_samples_count := s.ambient_samples_count + 1 }, none)
  else
    let s2 := if s.is_learning_ambient then { s with is_learning_ambient := false } else s
    if !((rfftfreq n cfg.sample_rate).any fun f => inBand cfg f) then
      (record_detection_window s2 current_time false 0 0 0, none)
    else
      let w := strong_window cfg s2.ambient_background_level n mags current_time
      let s3 := record_detection_window s2 current_time w.is_strong_signal
        w.frequency w.signal_ratio w.magnitude
      analyze_sustained_detection_nrv cfg s3 current_time w.frequency w.signal_ratio

/-- The whole detector with the `0.1 ≤ signal_strength_variation ≤ 2.0`
check removed from the decision predicate. -/
def process_audio_chunk_nrv (cfg : DetectorConfig) (s : DetectorState) (n : ℕ)
    (mags : List ℚ) (current_time : ℚ) : DetectorState × Option DetectionEvent :=
  let s1 := if s.start_time.isNone then { s with start_time := some current_time } else s
  if s1.is_alarm_latched && optTruthy s1.last_alarm_time then
    if current_time - (s1.last_alarm_time.getD 0) < cfg.alarm_latch_time then
      (s1, none)
    else
      process_body_nrv cfg { s1 with is_alarm_latched := false } n mags current_time
  else
    process_body_nrv cfg s1 n mags current_time

/-- The one place where the Python code could raise on a degenerate
spectrum: `np.argmax(target_magnitudes)` raises `ValueError` on an empty
array (everything else is absorbed by the `1e-10` guards and the
`np.any` fallbacks; float division never raises). -/
inductive PyFailure where
  | argmax_empty
  deriving DecidableEq

/-- `process_body` instrumented to surface the one potential runtime
error: reaching `np.argmax` with an empty target-band selection. -/
def process_body_checked (cfg : DetectorConfig) (s : DetectorState) (n : ℕ)
    (mags : List ℚ) (current_time : ℚ) :
    Except PyFailure (DetectorState × Option DetectionEvent) :=
  let current_background := currentBackground cfg n mags
  let time_since_start := current_time - (s.start_time.getD 0)
  if s.is_learning_ambient && decide (time_since_start < cfg.ambient_learning_time) then
    Except.ok ({ s with
        ambient_background_level :=
          (s.ambient_background_level * (s.ambient_samples_count : ℚ) +
              current_background) /
            ((s.ambient_samples_count : ℚ) + 1)
        ambient_samples_count := s.ambient_samples_count + 1 }, none)
  else
    let s2 := if s.is_learning_ambient then { s with is_learning_ambient := false } else s
    if !((rfftfreq n cfg.sample_rate).any fun f => inBand cfg f) then
      Except.ok (record_detection_window s2 current_time false 0 0 0, none)
    else
      let target := ((rfftfreq n cfg.sample_rate).zip mags).filter fun p => inBand cfg p.1
      if target.isEmpty then Except.error PyFailure.argmax_empty
      else
        let w := strong_window cfg s2.ambient_background_level n mags current_time
        let s3 := record_detection_window s2 current_time w.is_strong_signal
          w.frequency w.signal_ratio w.magnitude
        Except.ok (analyze_sustained_detection cfg s3 current_time w.frequency w.signal_ratio)

/-- `process_audio_chunk` instrumented with the `argmax` error. -/
def process_audio_chunk_checked (cfg : DetectorConfig) (s : DetectorState) (n : ℕ)
    (mags : List ℚ) (current_time : ℚ) :
    Except PyFailure (DetectorState × Option DetectionEvent) :=
  let s1 := if s.start_time.isNone then { s with start_time := some current_time } else s
  if s1.is_alarm_latched && optTruthy s1.last_alarm_time then
    if current_time - (s1.last_alarm_time.getD 0) < cfg.alarm_latch_time then
      Except.ok (s1, none)
    else
      process_body_checked cfg { s1 with is_alarm_latched := false } n mags current_time
  else
    process_body_checked cfg s1 n mags current_time

/-- The occupation ratio `_analyze_sustained_detection` computes at time
`current_time` over a buffer: the fraction of strong windows among those
within `alarm_sustain_threshold` seconds of `current_time`. -/
def occupationOf (cfg : DetectorConfig) (windows : List DetectionWindow)
    (current_time : ℚ) : ℚ :=
  let recent := windows.filter fun d =>
    decide (current_time - d.timestamp ≤ cfg.alarm_sustain_threshold)
  ((recent.filter fun d => d.is_strong_signal).length : ℚ) / (recent.length : ℚ)

/-- The last `k` elements of a list (what a `deque(maxlen=k)` retains). -/
def lastN (k : ℕ) (l : List α) : List α := l.drop (l.length - k)

/-- Strict monotonicity of a timestamp list (decidably). -/
def strictIncr : List ℚ → Bool
  | [] => true
  | [_] => true
  | a :: b :: r => decide (a < b) && strictIncr (b :: r)

/-! Concrete fixtures used by witnesses and counterexamples.  `cfgA` is a
small configuration (chunk length 32, 17 spectrum bins at 0..16 Hz,
target band [6, 10] Hz) chosen so that whole runs evaluate by `decide`;
`spike m` is a spectrum with a single in-band peak of magnitude `m`. -/

def cfgA : DetectorConfig :=
  { sample_rate := 32
    chunk_size := 32
    target_frequency := 8
    frequency_tolerance := 2
    ambient_learning_time := 1
    alarm_sustain_threshold := 100
    alarm_latch_time := 10
    min_signal_ratio := 75
    frequency_occupation_threshold := 1 / 4 }

def zeroMags : List ℚ := List.replicate 17 0

def spike (m : ℚ) : List ℚ := (List.replicate 17 0).set 8 m

/-- A post-learning, non-latched state (as reached after a learning phase
that saw only silence). -/
def activeState : DetectorState :=
  { start_time := some 0
    ambient_background_level := 0
    ambient_samples_count := 1
    is_learning_ambient := false
    detection_windows := []
    last_alarm_time := none
    is_alarm_latched := false }

lemma process_body_eq_frontend (cfg : DetectorConfig) (s : DetectorState) (n : ℕ)
    (mags : List ℚ) (t : ℚ) :
    process_body cfg s n mags t = process_body_frontend cfg s n mags t := by
  by_cases h : ((rfftfreq n cfg.sample_rate).any fun f => inBand cfg f) = true
  · simp only [process_body, process_body_frontend, spectralFrontend, strong_window, h]
    rfl
  · rw [Bool.not_eq_true] at h
    simp only [process_body, process_body_frontend, spectralFrontend, strong_window, h]
    rfl

/-- C6.  The spectral computation is a pure function of the chunk and the
configuration: `process_audio_chunk` factors through `spectralFrontend`
(which never reads the detector state), and `spectralFrontend` depends
only on `sample_rate`, `target_frequency` and `frequency_tolerance`, so
two evaluations on identical chunk arrays with identical configuration
yield identical `peak_magnitude`, `peak_frequency` and
`current_background` regardless of detector state. -/
theorem spectral_determinism :
    (∀ (cfg : DetectorConfig) (s : DetectorState) (n : ℕ) (mags : List ℚ) (t : ℚ),
      process_audio_chunk cfg s n mags t = process_audio_chunk_frontend cfg s n mags t) ∧
    (∀ (cfg1 cfg2 : DetectorConfig) (n : ℕ) (mags : List ℚ),
      cfg1.sample_rate = cfg2.sample_rate →
      cfg1.target_frequency = cfg2.target_frequency →
      cfg1.frequency_tolerance = cfg2.frequency_tolerance →
      spectralFrontend cfg1 n mags = spectralFrontend cfg2 n mags) := by
  constructor
  · intro cfg s n mags t
    simp only [process_audio_chunk, process_audio_chunk_frontend,
      process_body_eq_frontend]
  · intro cfg1 cfg2 n mags h1 h2 h3
    simp only [spectralFrontend, currentBackground, rfftfreq, inBand, h1, h2, h3]

/-- Witness for C6 at concrete inputs. -/
theorem spectral_determinism_witness :
    process_audio_chunk cfgA activeState 32 (spike 1) 5 =
      process_audio_chunk_frontend cfgA activeState 32 (spike 1) 5 ∧
    spectralFrontend cfgA 32 (spike 1) =
      spectralFrontend { cfgA with min_signal_ratio := 50 } 32 (spike 1) :=
  ⟨spectral_determinism.1 cfgA activeState 32 (spike 1) 5,
   spectral_determinism.2 cfgA { cfgA with min_signal_ratio := 50 } 32 (spike 1)
     (by decide) (by decide) (by decide)⟩

/-- C4 (amended).  `process_audio_chunk` performs no input validation at
all: it never reads `chunk_size` (the analysis is driven entirely by the
chunk's actual length), so a wrong-length chunk is processed like any
other, and no comparison with previous timestamps exists anywhere in the
processing path. -/
theorem no_input_validation :
    ∀ (cfg : DetectorConfig) (s : DetectorState) (n k : ℕ) (mags : List ℚ) (t : ℚ),
      process_audio_chunk { cfg with chunk_size := k } s n mags t =
        process_audio_chunk cfg s n mags t := by
  intro cfg s n k mags t
  rfl

/-- Counterexample to C4 as stated: a chunk of length 2 fed to a detector
configured with `chunk_size = 32` is not rejected: the call returns
normally (`none`, no error of any kind) and mutates the state (the
ambient accumulator advances), contradicting "rejected with an
invalid-input error ... state left unchanged". -/
theorem invalid_input_not_rejected_cx :
    2 ≠ cfgA.chunk_size ∧
    (process_audio_chunk cfgA initial_state 2 [0, 0] 0).2 = none ∧
    (process_audio_chunk cfgA initial_state 2 [0, 0] 0).1 ≠ initial_state ∧
    (process_audio_chunk cfgA initial_state 2 [0, 0] 0).1.ambient_samples_count = 1 := by
  with_unfolding_all decide

/-- C7.  On a post-learning, non-latched call where no FFT bin frequency
falls inside the target band, the detector appends the sentinel window
(non-strong, frequency 0, ratio 0, magnitude 0) and returns none. -/
theorem empty_target_band_sentinel :
    ∀ (cfg : DetectorConfig) (s : DetectorState) (n : ℕ) (mags : List ℚ) (t : ℚ),
      s.is_learning_ambient = false → s.is_alarm_latched = false →
      s.start_time.isSome = true →
      (∀ f ∈ rfftfreq n cfg.sample_rate, inBand cfg f = false) →
      process_audio_chunk cfg s n mags t =
        ({ s with detection_windows := dequeAppend 100 s.detection_windows
                      (DetectionWindow.mk t false 0 0 0) }, none) := by
  intro cfg s n mags t hlearn hlatch hstart hband
  have hnone : s.start_time.isNone = false := by
    cases h : s.start_time <;> simp_all
  have hany : ((rfftfreq n cfg.sample_rate).any fun f => inBand cfg f) = false := by
    simp only [List.any_eq_false]
    intro f hf
    simp [hband f hf]
  simp [process_audio_chunk, process_body, hnone, hlearn, hlatch, hany,
    record_detection_window]

/-- Witness for C7: chunk length 2 gives bins at 0 Hz and 16 Hz, both
outside the band [6, 10]. -/
theorem empty_target_band_sentinel_witness :
    process_audio_chunk cfgA activeState 2 [0, 0] 7 =
      ({ activeState with detection_windows := dequeAppend 100 activeState.detection_windows
                              (DetectionWindow.mk 7 false 0 0 0) }, none) :=
  empty_target_band_sentinel cfgA activeState 2 [0, 0] 7 (by decide) (by decide)
    (by decide) (by with_unfolding_all decide)

lemma and_redundant (a b c d e f rv hac : Bool) (h : hac = true → rv = true) :
    (a && b && c && rv && hac && d && e && f) =
      (a && b && c && hac && d && e && f) := by
  cases hh : hac
  · simp
  · simp [h hh]

lemma alarm_decision_eq_nrv (cfg : DetectorConfig)
    (occ avgf avgr fv sv : ℚ) (k : ℕ) :
    alarm_decision cfg occ avgf avgr fv sv k =
      alarm_decision_nrv cfg occ avgf avgr fv sv k := by
  simp only [alarm_decision, alarm_decision_nrv]
  refine and_redundant _ _ _ _ _ _ _ _ ?_
  intro hh
  rw [Bool.and_eq_true, Bool.and_eq_true] at hh
  obtain ⟨-, hv1, hv2⟩ := hh
  rw [decide_eq_true_eq] at hv1 hv2
  rw [Bool.and_eq_true, decide_eq_true_eq, decide_eq_true_eq]
  constructor
  · nlinarith [mul_self_nonneg (avgr + eps)]
  · nlinarith [mul_self_nonneg (avgr + eps)]

lemma sustained_result_eq_nrv (cfg : DetectorConfig) (ws : List DetectionWindow)
    (t : ℚ) : sustained_result cfg ws t = sustained_result_nrv cfg ws t := by
  unfold sustained_result sustained_result_nrv
  simp only [alarm_decision_eq_nrv]

lemma analyze_eq_nrv (cfg : DetectorConfig) (s : DetectorState) (t pf sr : ℚ) :
    analyze_sustained_detection cfg s t pf sr =
      analyze_sustained_detection_nrv cfg s t pf sr := by
  unfold analyze_sustained_detection analyze_sustained_detection_nrv
  rw [sustained_result_eq_nrv]

/-- C9.  The `0.1 ≤ signal_strength_variation ≤ 2.0` check is implied by
the `0.2 < signal_strength_variation < 1.2` conjunct of
`has_appropriate_consistency`, so removing it leaves the detector's
behaviour unchanged on every input. -/
theorem variation_check_redundant :
    ∀ (cfg : DetectorConfig) (s : DetectorState) (n : ℕ) (mags : List ℚ) (t : ℚ),
      process_audio_chunk cfg s n mags t = process_audio_chunk_nrv cfg s n mags t := by
  intro cfg s n mags t
  simp only [process_audio_chunk, process_audio_chunk_nrv, process_body,
    process_body_nrv, analyze_eq_nrv]

lemma learning_step (cfg : DetectorConfig) (s : DetectorState) (c : Chunk)
    (t0 B : ℚ) (k : ℕ)
    (hstart : s.start_time = some t0) (hlearn : s.is_learning_ambient = true)
    (hlatch : s.is_alarm_latched = false)
    (hamb : s.ambient_background_level = B) (hcount : s.ambient_samples_count = k)
    (hB : currentBackground cfg c.n c.mags = B)
    (ht : c.t - t0 < cfg.ambient_learning_time) :
    process_audio_chunk cfg s c.n c.mags c.t =
      ({ s with ambient_background_level := B, ambient_samples_count := k + 1 }, none) := by
  have hnone : s.start_time.isNone = false := by simp [hstart]
  have harith : (B * (k : ℚ) + B) / ((k : ℚ) + 1) = B := by
    rw [div_eq_iff (by positivity)]
    ring
  simp [process_audio_chunk, process_body, hnone, hlatch, hlearn, hstart,
    hamb, hcount, hB, ht, harith]

lemma learning_run (cfg : DetectorConfig) (t0 B : ℚ) (chunks : List Chunk) :
    ∀ (s : DetectorState) (k : ℕ),
      s.start_time = some t0 → s.is_learning_ambient = true →
      s.is_alarm_latched = false → s.ambient_background_level = B →
      s.ambient_samples_count = k →
      (∀ c ∈ chunks, currentBackground cfg c.n c.mags = B) →
      (∀ c ∈ chunks, c.t - t0 < cfg.ambient_learning_time) →
      (runDetector cfg s chunks).1.ambient_background_level = B ∧
      (runDetector cfg s chunks).1.ambient_samples_count = k + chunks.length ∧
      ((runDetector cfg s chunks).2.all fun o => o.isNone) = true := by
  induction chunks with
  | nil =>
    intro s k h1 h2 h3 h4 h5 hB ht
    simp [runDetector, h4, h5]
  | cons c cs ih =>
    intro s k h1 h2 h3 h4 h5 hB ht
    have hstep := learning_step cfg s c t0 B k h1 h2 h3 h4 h5
      (hB c (by simp)) (ht c (by simp))
    have ihr := ih { s with ambient_background_level := B, ambient_samples_count := k + 1 }
      (k + 1) (by simp [h1]) (by simp [h2]) (by simp [h3]) (by simp) (by simp)
      (fun d hd => hB d (by simp [hd])) (fun d hd => ht d (by simp [hd]))
    simp only [runDetector, hstep]
    refine ⟨ihr.1, ?_, ?_⟩
    · rw [ihr.2.1]
      simp only [List.length_cons]
      omega
    · simp [ihr.2.2]

/-- C2.  Feeding N ≥ 1 chunks, all timestamped inside the learning window
opened by the first chunk and all with constant out-of-band background
magnitude B, to a fresh detector: every call returns none, the ambient
level is exactly B, and the sample count is exactly N. -/
theorem ambient_learning_correctness :
    ∀ (cfg : DetectorConfig) (c0 : Chunk) (rest : List Chunk) (B : ℚ),
      (∀ c ∈ c0 :: rest, currentBackground cfg c.n c.mags = B) →
      (∀ c ∈ c0 :: rest, c.t - c0.t < cfg.ambient_learning_time) →
      (runDetector cfg initial_state (c0 :: rest)).1.ambient_background_level = B ∧
      (runDetector cfg initial_state (c0 :: rest)).1.ambient_samples_count =
        (c0 :: rest).length ∧
      ((runDetector cfg initial_state (c0 :: rest)).2.all fun o => o.isNone) = true := by
  intro cfg c0 rest B hB ht
  have hB0 := hB c0 (by simp)
  have ht0 := ht c0 (by simp)
  have h0 : process_audio_chunk cfg initial_state c0.n c0.mags c0.t =
      ({ initial_state with
          start_time := some c0.t
          ambient_background_level := B
          ambient_samples_count := 1 }, none) := by
    have ht0q : (0 : ℚ) < cfg.ambient_learning_time := by
      simpa using ht0
    simp [process_audio_chunk, process_body, initial_state, hB0, ht0q]
  have ihr := learning_run cfg c0.t B rest
    { initial_state with
        start_time := some c0.t
        ambient_background_level := B
        ambient_samples_count := 1 } 1
    (by simp [initial_state]) (by simp [initial_state]) (by simp [initial_state])
    (by simp) (by simp)
    (fun d hd => hB d (by simp [hd])) (fun d hd => ht d (by simp [hd]))
  simp only [runDetector, h0]
  exact ⟨ihr.1, by rw [ihr.2.1]; simp [Nat.add_comm], by simp [ihr.2.2]⟩

/-- Witness for C2: two chunks with constant background magnitude 2 fed
inside the 1-second learning window. -/
theorem ambient_learning_witness :
    (runDetector cfgA initial_state
        [Chunk.mk 32 (List.replicate 17 2) 0,
         Chunk.mk 32 (List.replicate 17 2) (1 / 2)]).1.ambient_background_level = 2 ∧
    (runDetector cfgA initial_state
        [Chunk.mk 32 (List.replicate 17 2) 0,
         Chunk.mk 32 (List.replicate 17 2) (1 / 2)]).1.ambient_samples_count = 2 ∧
    ((runDetector cfgA initial_state
        [Chunk.mk 32 (List.replicate 17 2) 0,
         Chunk.mk 32 (List.replicate 17 2) (1 / 2)]).2.all fun o => o.isNone) = true :=
  ambient_learning_correctness cfgA (Chunk.mk 32 (List.replicate 17 2) 0)
    [Chunk.mk 32 (List.replicate 17 2) (1 / 2)] 2
    (by with_unfolding_all decide) (by with_unfolding_all decide)

lemma process_body_some (cfg : DetectorConfig) (s : DetectorState) (n : ℕ)
    (mags : List ℚ) (t : ℚ) (s' : DetectorState) (e : DetectionEvent)
    (h : process_body cfg s n mags t = (s', some e)) :
    s'.is_alarm_latched = true ∧ s'.last_alarm_time = some t ∧
    s'.start_time = s.start_time ∧ s'.is_learning_ambient = false ∧
    sustained_result cfg s'.detection_windows t = some e := by
  simp only [process_body] at h
  split at h
  · exact absurd h (by simp)
  · split at h
    · exact absurd h (by simp)
    · simp only [analyze_sustained_detection] at h
      split at h
      case _ ev hm =>
        rw [Prod.mk.injEq] at h
        obtain ⟨hs', he⟩ := h
        obtain rfl : ev = e := by simpa using he
        subst hs'
        refine ⟨rfl, rfl, ?_, ?_, ?_⟩
        · by_cases hL : s.is_learning_ambient = true <;>
            simp [record_detection_window, hL]
        · by_cases hL : s.is_learning_ambient = true <;>
            simp [record_detection_window, hL]
        · exact hm
      case _ hm => exact absurd h (by simp)

lemma process_some_state (cfg : DetectorConfig) (s : DetectorState) (n : ℕ)
    (mags : List ℚ) (t : ℚ) (s' : DetectorState) (e : DetectionEvent)
    (h : process_audio_chunk cfg s n mags t = (s', some e)) :
    s'.is_alarm_latched = true ∧ s'.last_alarm_time = some t ∧
    s'.start_time.isSome = true ∧ s'.is_learning_ambient = false ∧
    sustained_result cfg s'.detection_windows t = some e := by
  simp only [process_audio_chunk] at h
  by_cases hs : s.start_time.isNone = true
  all_goals simp only [hs, if_true, if_false, Bool.false_eq_true] at h
  · -- start_time was none, s1 = { s with start_time := some t }
    split at h
    · split at h
      · exact absurd h (by simp)
      · have hb := process_body_some _ _ _ _ _ _ _ h
        exact ⟨hb.1, hb.2.1, by rw [hb.2.2.1]; rfl, hb.2.2.2.1, hb.2.2.2.2⟩
    · have hb := process_body_some _ _ _ _ _ _ _ h
      exact ⟨hb.1, hb.2.1, by rw [hb.2.2.1]; rfl, hb.2.2.2.1, hb.2.2.2.2⟩
  · -- start_time already set, s1 = s
    have hsome : s.start_time.isSome = true := by
      cases hx : s.start_time
      · rw [hx] at hs; simp at hs
      · rfl
    split at h
    · split at h
      · exact absurd h (by simp)
      · have hb := process_body_some _ _ _ _ _ _ _ h
        exact ⟨hb.1, hb.2.1, by rw [hb.2.2.1]; exact hsome, hb.2.2.2.1, hb.2.2.2.2⟩
    · have hb := process_body_some _ _ _ _ _ _ _ h
      exact ⟨hb.1, hb.2.1, by rw [hb.2.2.1]; exact hsome, hb.2.2.2.1, hb.2.2.2.2⟩

lemma sustained_some_occ (cfg : DetectorConfig) (ws : List DetectionWindow)
    (t : ℚ) (e : DetectionEvent) (h : sustained_result cfg ws t = some e) :
    occupationOf cfg ws t ≤ 4 / 5 := by
  simp only [sustained_result] at h
  split at h
  · exact absurd h (by simp)
  · split at h
    · exact absurd h (by simp)
    · split at h
      · exact absurd h (by simp)
      · split at h
        · split at h
          · rename_i halarm
            simp only [alarm_decision, Bool.and_eq_true, decide_eq_true_eq] at halarm
            simp only [occupationOf]
            exact halarm.1.1.1.1.1.1.2.2
          · exact absurd h (by simp)
        · split at h
          · rename_i halarm
            simp only [alarm_decision, Bool.and_eq_true, decide_eq_true_eq] at halarm
            simp only [occupationOf]
            exact halarm.1.1.1.1.1.1.2.2
          · exact absurd h (by simp)

/-- C3.  Whenever the fraction of strong windows among the buffered
windows within `alarm_sustain_threshold` seconds of the current
timestamp (as the sustained analysis sees them, i.e. with the current
chunk's window already recorded) exceeds 0.80, the call returns none:
`is_reasonable_occupation` fails, so no detection can fire. -/
theorem occupation_upper_bound :
    ∀ (cfg : DetectorConfig) (s : DetectorState) (n : ℕ) (mags : List ℚ) (t : ℚ),
      4 / 5 < occupationOf cfg (process_audio_chunk cfg s n mags t).1.detection_windows t →
      (process_audio_chunk cfg s n mags t).2 = none := by
  intro cfg s n mags t hocc
  by_contra hne
  obtain ⟨e, he⟩ := Option.ne_none_iff_exists'.mp hne
  have hp : process_audio_chunk cfg s n mags t =
      ((process_audio_chunk cfg s n mags t).1, some e) := by
    rw [← he]
  have hfacts := process_some_state cfg s n mags t _ e hp
  have := sustained_some_occ cfg _ t e hfacts.2.2.2.2
  linarith

/-- A state whose buffer already holds five strong windows (as after five
strong chunks); one more strong chunk makes the occupation ratio 1. -/
def strongState : DetectorState :=
  { start_time := some 0
    ambient_background_level := 0
    ambient_samples_count := 1
    is_learning_ambient := false
    detection_windows :=
      [DetectionWindow.mk 1 true 8 (10 ^ 10) 1, DetectionWindow.mk 2 true 8 (10 ^ 10) 1,
       DetectionWindow.mk 3 true 8 (10 ^ 10) 1, DetectionWindow.mk 4 true 8 (10 ^ 10) 1,
       DetectionWindow.mk 5 true 8 (10 ^ 10) 1]
    last_alarm_time := none
    is_alarm_latched := false }

/-- Witness for C3: a 100%-strong stream (occupation ratio 1 > 0.80)
returns none. -/
theorem occupation_upper_bound_witness :
    4 / 5 < occupationOf cfgA
      (process_audio_chunk cfgA strongState 32 (spike 1) 6).1.detection_windows 6 ∧
    (process_audio_chunk cfgA strongState 32 (spike 1) 6).2 = none :=
  ⟨by with_unfolding_all decide,
   occupation_upper_bound cfgA strongState 32 (spike 1) 6 (by with_unfolding_all decide)⟩

lemma process_latched_blocked (cfg : DetectorConfig) (s : DetectorState) (n : ℕ)
    (mags : List ℚ) (t T : ℚ)
    (h1 : s.is_alarm_latched = true) (h2 : s.last_alarm_time = some T) (h3 : T ≠ 0)
    (h4 : s.start_time.isSome = true) (h5 : t - T < cfg.alarm_latch_time) :
    process_audio_chunk cfg s n mags t = (s, none) := by
  have hnone : s.start_time.isNone = false := by
    cases hx : s.start_time <;> simp_all
  simp [process_audio_chunk, hnone, h1, h2, optTruthy, h3, h5]

lemma mk_strong_window_eta (cfg : DetectorConfig) (a : ℚ) (n : ℕ) (mags : List ℚ)
    (t : ℚ) :
    DetectionWindow.mk t (strong_window cfg a n mags t).is_strong_signal
      (strong_window cfg a n mags t).frequency (strong_window cfg a n mags t).signal_ratio
      (strong_window cfg a n mags t).magnitude = strong_window cfg a n mags t := rfl

lemma process_latched_expired (cfg : DetectorConfig) (s : DetectorState) (n : ℕ)
    (mags : List ℚ) (t T : ℚ)
    (h1 : s.is_alarm_latched = true) (h2 : s.last_alarm_time = some T) (h3 : T ≠ 0)
    (h4 : s.start_time.isSome = true) (h5 : ¬(t - T < cfg.alarm_latch_time))
    (h6 : s.is_learning_ambient = false)
    (h7 : ((rfftfreq n cfg.sample_rate).any fun f => inBand cfg f) = true)
    (h8 : (sustained_result cfg (dequeAppend 100 s.detection_windows
              (strong_window cfg s.ambient_background_level n mags t)) t).isSome = true) :
    (process_audio_chunk cfg s n mags t).2.isSome = true := by
  have hnone : s.start_time.isNone = false := by
    cases hx : s.start_time <;> simp_all
  obtain ⟨ev, hev⟩ := Option.isSome_iff_exists.mp h8
  simp [process_audio_chunk, process_body, analyze_sustained_detection,
    record_detection_window, mk_strong_window_eta, hnone, h1, h2, h3, h5, h6, h7,
    optTruthy, hev]

/-- C1 (amended: the detection timestamp must be nonzero, see the
counterexample).  After a call returning a detection event at time
T ≠ 0: every subsequent call with timestamp strictly between T and
T + alarm_latch_time returns none and leaves the state untouched,
whatever its chunk; and a call at T + alarm_latch_time + δ (δ > 0) whose
chunk has target bins and whose resulting buffer satisfies the
sustained-detection predicate returns a detection event again. -/
theorem latch_enforcement_nonzero :
    ∀ (cfg : DetectorConfig) (s : DetectorState) (n : ℕ) (mags : List ℚ) (T : ℚ),
      (process_audio_chunk cfg s n mags T).2.isSome = true → T ≠ 0 →
      (∀ (n2 : ℕ) (mags2 : List ℚ) (t : ℚ), T < t → t - T < cfg.alarm_latch_time →
        process_audio_chunk cfg (process_audio_chunk cfg s n mags T).1 n2 mags2 t =
          ((process_audio_chunk cfg s n mags T).1, none)) ∧
      (∀ (n2 : ℕ) (mags2 : List ℚ) (δ : ℚ), 0 < δ →
        ((rfftfreq n2 cfg.sample_rate).any fun f => inBand cfg f) = true →
        (sustained_result cfg
            (dequeAppend 100 (process_audio_chunk cfg s n mags T).1.detection_windows
              (strong_window cfg
                (process_audio_chunk cfg s n mags T).1.ambient_background_level
                n2 mags2 (T + cfg.alarm_latch_time + δ)))
            (T + cfg.alarm_latch_time + δ)).isSome = true →
        (process_audio_chunk cfg (process_audio_chunk cfg s n mags T).1 n2 mags2
            (T + cfg.alarm_latch_time + δ)).2.isSome = true) := by
  intro cfg s n mags T hdet hT
  obtain ⟨e, he⟩ := Option.isSome_iff_exists.mp hdet
  have hp : process_audio_chunk cfg s n mags T =
      ((process_audio_chunk cfg s n mags T).1, some e) := by
    rw [← he]
  have hf := process_some_state cfg s n mags T _ e hp
  constructor
  · intro n2 mags2 t ht1 ht2
    exact process_latched_blocked cfg _ n2 mags2 t T hf.1 hf.2.1 hT hf.2.2.1 ht2
  · intro n2 mags2 δ hδ hband hsus
    refine process_latched_expired cfg _ n2 mags2 _ T hf.1 hf.2.1 hT hf.2.2.1 ?_
      hf.2.2.2.1 hband hsus
    intro hcon
    linarith

/-- The 9-chunk stream that drives a fresh detector to a detection at
timestamp exactly 20 (1 learning chunk, 3 weak chunks, 4 strong
single-bin spikes; the fifth strong spike then fires the alarm). -/
def chunksW : List Chunk :=
  [Chunk.mk 32 zeroMags 0, Chunk.mk 32 zeroMags 1, Chunk.mk 32 zeroMags 2,
   Chunk.mk 32 zeroMags 3, Chunk.mk 32 (spike 1) 16, Chunk.mk 32 (spike 1) 17,
   Chunk.mk 32 (spike 1) 18, Chunk.mk 32 (spike 1) 19]

def sW : DetectorState := (runDetector cfgA initial_state chunksW).1

/-- Witness for C1: detection at T = 20; the call at 20.5 (inside the
10-second latch) is swallowed with the state unchanged; the call at
30.5 = T + alarm_latch_time + 0.5 with a qualifying pattern detects
again. -/
theorem latch_enforcement_nonzero_witness :
    process_audio_chunk cfgA (process_audio_chunk cfgA sW 32 (spike 3) 20).1 32
        (spike 3) (41 / 2) =
      ((process_audio_chunk cfgA sW 32 (spike 3) 20).1, none) ∧
    (process_audio_chunk cfgA (process_audio_chunk cfgA sW 32 (spike 3) 20).1 32
        (spike 3) (20 + cfgA.alarm_latch_time + 1 / 2)).2.isSome = true := by
  have h := latch_enforcement_nonzero cfgA sW 32 (spike 3) 20
    (by with_unfolding_all decide) (by with_unfolding_all decide)
  exact ⟨h.1 32 (spike 3) (41 / 2) (by with_unfolding_all decide)
      (by with_unfolding_all decide),
    h.2 32 (spike 3) (1 / 2) (by with_unfolding_all decide)
      (by with_unfolding_all decide) (by with_unfolding_all decide)⟩

/-- The same stream shifted to start at -20, so that the detection lands
at timestamp exactly 0. -/
def chunksZ : List Chunk :=
  [Chunk.mk 32 zeroMags (-20), Chunk.mk 32 zeroMags (-19), Chunk.mk 32 zeroMags (-18),
   Chunk.mk 32 zeroMags (-17), Chunk.mk 32 (spike 1) (-4), Chunk.mk 32 (spike 1) (-3),
   Chunk.mk 32 (spike 1) (-2), Chunk.mk 32 (spike 1) (-1)]

def sZ : DetectorState := (runDetector cfgA initial_state chunksZ).1

/-- Counterexample to C1 as stated: a run whose detection event lands at
timestamp exactly 0.  The follow-up call at 1/2 — strictly inside
(T, T + alarm_latch_time) — is not suppressed and returns a second
detection event, because the latch guard tests Python truthiness of
`last_alarm_time` and 0.0 is falsy. -/
theorem latch_enforcement_zero_cx :
    (process_audio_chunk cfgA sZ 32 (spike 3) 0).2.isSome = true ∧
    (process_audio_chunk cfgA sZ 32 (spike 3) 0).1.last_alarm_time = some 0 ∧
    (0 : ℚ) < 1 / 2 ∧ (1 / 2 : ℚ) - 0 < cfgA.alarm_latch_time ∧
    (process_audio_chunk cfgA (process_audio_chunk cfgA sZ 32 (spike 3) 0).1 32
        (spike 3) (1 / 2)).2 ≠ none := by
  with_unfolding_all decide

/-- C10.  The latch guard `if self.is_alarm_latched and self.last_alarm_time:`
requires truthiness of `last_alarm_time`, so after a detection emitted at
timestamp exactly 0.0 (reachable, since timestamps only need to be
non-decreasing, not positive), a call less than `alarm_latch_time` later
bypasses the latch and returns a second detection event. -/
theorem latch_bypass_at_time_zero :
    ((process_audio_chunk cfgA sZ 32 (spike 3) 0).2.map fun e => e.timestamp) = some 0 ∧
    (process_audio_chunk cfgA sZ 32 (spike 3) 0).1.is_alarm_latched = true ∧
    (process_audio_chunk cfgA sZ 32 (spike 3) 0).1.last_alarm_time = some 0 ∧
    (1 / 2 : ℚ) < cfgA.alarm_latch_time ∧
    (process_audio_chunk cfgA (process_audio_chunk cfgA sZ 32 (spike 3) 0).1 32
        (spike 3) (1 / 2)).2.isSome = true := by
  with_unfolding_all decide

lemma zip_filter_ne_nil : ∀ (l1 l2 : List ℚ) (p : ℚ → Bool),
    l1.length = l2.length → l1.any p = true →
    ((l1.zip l2).filter fun q => p q.1) ≠ [] := by
  intro l1
  induction l1 with
  | nil => intro l2 p _ ha; simp at ha
  | cons a l1 ih =>
    intro l2 p hlen ha
    cases l2 with
    | nil => simp at hlen
    | cons b l2 =>
      rw [List.zip_cons_cons]
      by_cases hpa : p a = true
      · simp [List.filter_cons, hpa]
      · have ha' : l1.any p = true := by
          rcases (List.any_eq_true.mp ha) with ⟨x, hx, hpx⟩
          rcases List.mem_cons.mp hx with rfl | hx'
          · exact absurd hpx hpa
          · exact List.any_eq_true.mpr ⟨x, hx', hpx⟩
        have := ih l2 p (by simpa using hlen) ha'
        simpa [List.filter_cons, hpa] using this

lemma process_body_checked_ok (cfg : DetectorConfig) (s : DetectorState) (n : ℕ)
    (mags : List ℚ) (t : ℚ) (hlen : mags.length = n / 2 + 1) :
    process_body_checked cfg s n mags t = Except.ok (process_body cfg s n mags t) := by
  simp only [process_body_checked, process_body]
  split
  · rfl
  · split
    · rfl
    · rename_i hband
      rw [Bool.not_eq_eq_eq_not, Bool.not_true, Bool.not_eq_false] at hband
      have hlen2 : (rfftfreq n cfg.sample_rate).length = mags.length := by
        rw [rfftfreq, List.length_map, List.length_range, hlen]
      have hne := zip_filter_ne_nil _ _ _ hlen2 hband
      rw [if_neg (by simpa [List.isEmpty_iff] using hne)]

/-- C8.  Arithmetic totality: on every well-formed chunk (positive
length, spectrum of the matching size) and every state, the detector
never reaches a raising operation: the instrumented variant (which
surfaces the only possible Python exception, `np.argmax` of an empty
selection) returns `ok` of exactly the plain result.  Every division is
guarded by `1e-10`, the empty out-of-band case falls back to
`0.1 * mean`, and the empty target-band case takes the sentinel branch
before `argmax`. -/
theorem arithmetic_totality :
    ∀ (cfg : DetectorConfig) (s : DetectorState) (n : ℕ) (mags : List ℚ) (t : ℚ),
      0 < n → mags.length = n / 2 + 1 →
      process_audio_chunk_checked cfg s n mags t =
        Except.ok (process_audio_chunk cfg s n mags t) := by
  intro cfg s n mags t _ hlen
  simp only [process_audio_chunk_checked, process_audio_chunk]
  repeat' split
  all_goals first
    | rfl
    | exact process_body_checked_ok cfg _ n mags t hlen

/-- Witness for C8. -/
theorem arithmetic_totality_witness :
    0 < 32 ∧ (spike 1).length = 32 / 2 + 1 ∧
    process_audio_chunk_checked cfgA activeState 32 (spike 1) 5 =
      Except.ok (process_audio_chunk cfgA activeState 32 (spike 1) 5) :=
  ⟨by decide, by with_unfolding_all decide,
   arithmetic_totality cfgA activeState 32 (spike 1) 5 (by decide)
     (by with_unfolding_all decide)⟩

lemma length_dequeAppend_le (l : List DetectionWindow) (x : DetectionWindow)
    (h : l.length ≤ 100) : (dequeAppend 100 l x).length ≤ 100 := by
  have hlen : (l ++ [x]).length = l.length + 1 := by simp
  simp only [dequeAppend]
  split
  · rw [List.length_drop, hlen]
    omega
  · rename_i hnot
    rw [hlen]
    rw [hlen] at hnot
    omega

lemma dequeAppend_eq_lastN (l : List DetectionWindow) (x : DetectionWindow) :
    dequeAppend 100 l x = lastN 100 (l ++ [x]) := by
  simp only [dequeAppend, lastN]
  split
  · rfl
  · rename_i hnot
    have hz : (l ++ [x]).length - 100 = 0 := by omega
    rw [hz, List.drop_zero]

lemma lastN_of_le {α : Type} (k : ℕ) (l : List α) (h : l.length ≤ k) :
    lastN k l = l := by
  simp [lastN, Nat.sub_eq_zero_of_le h]

lemma lastN_map {α β : Type} (k : ℕ) (f : α → β) (l : List α) :
    (lastN k l).map f = lastN k (l.map f) := by
  simp [lastN, List.map_drop]

lemma lastN_append_lastN {α : Type} (k : ℕ) (l m : List α) :
    lastN k (lastN k l ++ m) = lastN k (l ++ m) := by
  simp only [lastN]
  rw [← List.drop_append_of_le_length (Nat.sub_le l.length k), List.drop_drop]
  congr 1
  simp only [List.length_append, List.length_drop]
  omega

lemma process_windows_cases (cfg : DetectorConfig) (s : DetectorState) (n : ℕ)
    (mags : List ℚ) (t : ℚ) :
    (process_audio_chunk cfg s n mags t).1.detection_windows = s.detection_windows ∨
    ∃ w, (process_audio_chunk cfg s n mags t).1.detection_windows =
      dequeAppend 100 s.detection_windows w := by
  simp only [process_audio_chunk, process_body, analyze_sustained_detection,
    record_detection_window]
  repeat' split
  all_goals first
    | (left; rfl)
    | (right; exact ⟨_, rfl⟩)

lemma run_windows_le (cfg : DetectorConfig) (chunks : List Chunk) :
    ∀ s : DetectorState, s.detection_windows.length ≤ 100 →
      (runDetector cfg s chunks).1.detection_windows.length ≤ 100 := by
  induction chunks with
  | nil => intro s h; simpa [runDetector] using h
  | cons c cs ih =>
    intro s h
    simp only [runDetector]
    apply ih
    rcases process_windows_cases cfg s c.n c.mags c.t with hw | ⟨w, hw⟩
    · rw [hw]; exact h
    · rw [hw]; exact length_dequeAppend_le _ _ h

lemma process_step_none (cfg : DetectorConfig) (s : DetectorState) (c : Chunk)
    (hl : s.is_learning_ambient = false) (ha : s.is_alarm_latched = false)
    (hs : s.start_time.isSome = true)
    (hn : (process_audio_chunk cfg s c.n c.mags c.t).2 = none) :
    ∃ w : DetectionWindow, w.timestamp = c.t ∧
      (process_audio_chunk cfg s c.n c.mags c.t).1.detection_windows =
        dequeAppend 100 s.detection_windows w ∧
      (process_audio_chunk cfg s c.n c.mags c.t).1.is_learning_ambient = false ∧
      (process_audio_chunk cfg s c.n c.mags c.t).1.is_alarm_latched = false ∧
      (process_audio_chunk cfg s c.n c.mags c.t).1.start_time.isSome = true := by
  have hnone : s.start_time.isNone = false := by
    cases hx : s.start_time <;> simp_all
  have hred : process_audio_chunk cfg s c.n c.mags c.t =
      process_body cfg s c.n c.mags c.t := by
    simp [process_audio_chunk, hnone, ha]
  rw [hred] at hn ⊢
  simp only [process_body, hl, Bool.false_and, Bool.false_eq_true, if_false] at hn ⊢
  by_cases hb : ((rfftfreq c.n cfg.sample_rate).any fun f => inBand cfg f) = true
  · simp only [hb, Bool.not_true, Bool.false_eq_true, if_false] at hn ⊢
    simp only [analyze_sustained_detection] at hn ⊢
    split at hn
    · exact absurd hn (by simp)
    · exact ⟨DetectionWindow.mk c.t
        (strong_window cfg s.ambient_background_level c.n c.mags c.t).is_strong_signal
        (strong_window cfg s.ambient_background_level c.n c.mags c.t).frequency
        (strong_window cfg s.ambient_background_level c.n c.mags c.t).signal_ratio
        (strong_window cfg s.ambient_background_level c.n c.mags c.t).magnitude,
        rfl, rfl, hl, ha, hs⟩
  · rw [Bool.not_eq_true] at hb
    simp only [hb, Bool.not_false, if_true] at hn ⊢
    exact ⟨DetectionWindow.mk c.t false 0 0 0, rfl, rfl, hl, ha, hs⟩

lemma run_all_none_windows (cfg : DetectorConfig) (chunks : List Chunk) :
    ∀ s : DetectorState, s.is_learning_ambient = false → s.is_alarm_latched = false →
      s.start_time.isSome = true → s.detection_windows.length ≤ 100 →
      ((runDetector cfg s chunks).2.all fun o => o.isNone) = true →
      (runDetector cfg s chunks).1.detection_windows.map (fun w => w.timestamp) =
        lastN 100 ((s.detection_windows.map fun w => w.timestamp) ++
          chunks.map fun c => c.t) := by
  induction chunks with
  | nil =>
    intro s h1 h2 h3 h4 _
    simp only [runDetector, List.map_nil, List.append_nil]
    rw [lastN_of_le]
    rw [List.length_map]
    exact h4
  | cons c cs ih =>
    intro s h1 h2 h3 h4 h5
    simp only [runDetector, List.all_cons, Bool.and_eq_true] at h5
    obtain ⟨hc, hcs⟩ := h5
    have hcnone : (process_audio_chunk cfg s c.n c.mags c.t).2 = none :=
      Option.isNone_iff_eq_none.mp hc
    obtain ⟨w, hwt, hwin, hf1, hf2, hf3⟩ := process_step_none cfg s c h1 h2 h3 hcnone
    have hlen2 : (process_audio_chunk cfg s c.n c.mags c.t).1.detection_windows.length ≤ 100 := by
      rw [hwin]; exact length_dequeAppend_le _ _ h4
    have hrec := ih _ hf1 hf2 hf3 hlen2 hcs
    simp only [runDetector]
    rw [hrec, hwin, dequeAppend_eq_lastN, lastN_map, List.map_append, List.map_cons,
      List.map_nil, hwt, lastN_append_lastN, List.map_cons, List.append_cons]
    congr 1
    simp [List.append_assoc]

/-- C5 (amended: the exact-count part additionally requires that no
detection fires during the 150 chunks, see the counterexample).  The
ring buffer never exceeds 100 entries after any sequence of calls; and
feeding 150 post-learning chunks to an empty buffer with every call
returning none leaves exactly 100 entries, the 50 oldest evicted, the
oldest remaining carrying the 51st chunk's timestamp. -/
theorem ring_buffer_cap_amended :
    (∀ (cfg : DetectorConfig) (s : DetectorState) (chunks : List Chunk),
      s.detection_windows.length ≤ 100 →
      (runDetector cfg s chunks).1.detection_windows.length ≤ 100) ∧
    (∀ (cfg : DetectorConfig) (s : DetectorState) (chunks : List Chunk),
      chunks.length = 150 → s.detection_windows = [] →
      s.is_learning_ambient = false → s.is_alarm_latched = false →
      s.start_time.isSome = true →
      ((runDetector cfg s chunks).2.all fun o => o.isNone) = true →
      (runDetector cfg s chunks).1.detection_windows.length = 100 ∧
      (runDetector cfg s chunks).1.detection_windows.map (fun w => w.timestamp) =
        (chunks.map fun c => c.t).drop 50) := by
  constructor
  · intro cfg s chunks h
    exact run_windows_le cfg chunks s h
  · intro cfg s chunks hlen hwin h1 h2 h3 hall
    have hmain := run_all_none_windows cfg chunks s h1 h2 h3 (by rw [hwin]; simp) hall
    rw [hwin] at hmain
    simp only [List.map_nil, List.nil_append] at hmain
    have hlenm : (chunks.map fun c => c.t).length = 150 := by
      rw [List.length_map, hlen]
    constructor
    · have hcong := congrArg List.length hmain
      rw [List.length_map] at hcong
      rw [hcong]
      simp only [lastN, List.length_drop, hlenm]
    · rw [hmain]
      simp only [lastN, hlenm]

/-- The 150-chunk sentinel stream (chunk length 2 has no bins in band,
so every call appends the sentinel window and returns none). -/
def sentinelChunks : List Chunk :=
  (List.range 150).map fun k : ℕ => Chunk.mk 2 [0, 0] (k : ℚ)

/-- Witness for C5: 150 sentinel chunks with distinct non-decreasing
timestamps 0..149 leave exactly 100 windows, the oldest timestamped 50. -/
theorem ring_buffer_cap_witness :
    sentinelChunks.length = 150 ∧
    ((runDetector cfgA activeState sentinelChunks).2.all fun o => o.isNone) = true ∧
    (runDetector cfgA activeState sentinelChunks).1.detection_windows.length ≤ 100 ∧
    (runDetector cfgA activeState sentinelChunks).1.detection_windows.length = 100 ∧
    (runDetector cfgA activeState sentinelChunks).1.detection_windows.map
        (fun w => w.timestamp) =
      (sentinelChunks.map fun c => c.t).drop 50 := by
  have h2 := ring_buffer_cap_amended.2 cfgA activeState sentinelChunks
    (by with_unfolding_all decide) (by with_unfolding_all decide)
    (by with_unfolding_all decide) (by with_unfolding_all decide)
    (by with_unfolding_all decide) (by with_unfolding_all decide)
  have h1 := ring_buffer_cap_amended.1 cfgA activeState sentinelChunks
    (by with_unfolding_all decide)
  exact ⟨by with_unfolding_all decide, by with_unfolding_all decide, h1, h2.1, h2.2⟩

/-- The 142 cheap latched chunks after the detection at t = 20. -/
def cxTail : List Chunk :=
  (List.range 142).map fun k : ℕ => Chunk.mk 2 [0, 0] (20 + ((k : ℚ) + 1) / 100)

/-- 150 post-learning chunks with strictly increasing timestamps whose
eighth chunk fires a detection at t = 20; the remaining 142 fall inside
the 10-second latch and append nothing. -/
def cxChunks : List Chunk :=
  [Chunk.mk 32 zeroMags 1, Chunk.mk 32 zeroMags 2, Chunk.mk 32 zeroMags 3,
   Chunk.mk 32 (spike 1) 16, Chunk.mk 32 (spike 1) 17, Chunk.mk 32 (spike 1) 18,
   Chunk.mk 32 (spike 1) 19, Chunk.mk 32 (spike 3) 20] ++ cxTail

/-- Counterexample to C5 as stated: feeding these 150 post-learning
chunks with distinct non-decreasing timestamps leaves 8 entries, not
100 — a mid-run detection latches the detector, and latched calls append
nothing. -/
theorem ring_buffer_150_cx :
    cxChunks.length = 150 ∧
    strictIncr (cxChunks.map fun c => c.t) = true ∧
    activeState.is_learning_ambient = false ∧
    activeState.detection_windows = [] ∧
    (runDetector cfgA activeState cxChunks).1.detection_windows.length = 8 ∧
    (runDetector cfgA activeState cxChunks).1.detection_windows.length ≠ 100 := by
  with_unfolding_all decide
